import Mathlib

/-!
Shallow embedding of the StuntMan trading service core
(src/trading-service/trading_client.py and src/trading-service/api.py).

Modelling conventions:
- Python floats are modelled as `Rat` (the claims only compare and negate
  prices/PnL figures, never do lossy float arithmetic).
- Python dicts (`self._orders`, `self._positions`) are association lists in
  insertion order; `assocSet` mirrors dict assignment (update in place for an
  existing key, append for a new key).
- The Broker Link (`self._client`, the async_rithmic client) is an opaque
  external service.  Each venue call is modelled by an explicit response
  parameter: `submit_order` responses form a script `List (Option String)`
  consumed in call order (`none` = the call raises, `some oid` = venue ack
  with that order id); `cancel_order` / `cancel_all_orders` take a `Bool`
  (`false` = raises); `get_positions` takes an `Option (List Position)`.
- A `RuntimeError("Not connected to Rithmic")` raised past an operation is a
  distinct `notConnected` result constructor.
- Timestamps (`datetime.now()`) are dropped: no claim mentions them.
- Each operation additionally returns the list of broker submissions it made
  (instrumentation used to state "exactly two submissions" style claims).
-/

namespace Trading

inductive OrderSide
  | buy
  | sell
deriving DecidableEq

inductive OrderType
  | market
  | limit
  | stop
  | stopLimit
deriving DecidableEq

inductive OrderStatus
  | pending
  | submitted
  | filled
  | partFilled
  | cancelled
  | rejected
deriving DecidableEq

/-- `Position` dataclass: quantity positive = long, negative = short. -/
structure Position where
  symbol : String
  quantity : Int
  avg_price : Rat
  unrealized_pnl : Rat
  realized_pnl : Rat
deriving DecidableEq

/-- `Order` dataclass (timestamp omitted). -/
structure Order where
  order_id : String
  symbol : String
  side : OrderSide
  quantity : Int
  order_type : OrderType
  price : Option Rat
  stop_price : Option Rat
  status : OrderStatus
  filled_quantity : Int
  filled_price : Rat
deriving DecidableEq

/-- The slice of the process configuration the trading client reads
(`config.trading.max_contracts`, `config.trading.max_daily_loss`). -/
structure TradingConfig where
  max_contracts : Int
  max_daily_loss : Rat
deriving DecidableEq

/-- Mutable state of a `TradingClient` instance (market-data cache and
account-info cache omitted: no claim touches them). -/
structure ClientState where
  connected : Bool
  positions : List (String × Position)
  orders : List (String × Order)
  daily_pnl : Rat
  trading_enabled : Bool
deriving DecidableEq

/-- Python dict assignment `d[k] = v` on an insertion-ordered dict. -/
def assocSet {α : Type} (l : List (String × α)) (k : String) (v : α) :
    List (String × α) :=
  match l with
  | [] => [(k, v)]
  | (k', v') :: rest =>
      if k' = k then (k, v) :: rest else (k', v') :: assocSet rest k v

/-- One call to the Broker Link's `submit_order` (the arguments the client
passes, after its own clamping). -/
structure Submission where
  symbol : String
  side : OrderSide
  quantity : Int
  order_type : OrderType
  price : Option Rat
  stop_price : Option Rat
deriving DecidableEq

/-- Result of `TradingClient.place_order`: raise of
`RuntimeError("Not connected to Rithmic")`, `None`, or an `Order`. -/
inductive PlaceResult
  | notConnected : PlaceResult
  | noOrder : PlaceResult
  | placed : Order → PlaceResult
deriving DecidableEq

/-- Outcome of an operation that may place orders: the operation's result,
the client state after it, the broker submissions it made, and the unread
remainder of the submit-response script. -/
structure PlaceOutcome where
  result : PlaceResult
  state : ClientState
  subs : List Submission
  script : List (Option String)
deriving DecidableEq

/-- `TradingClient.place_order` (trading_client.py lines 249-340).

Checks, in source order: connection (raises when absent), the
trading-enabled flag (returns `None`), the quantity clamp against
`max_contracts`, the daily-loss limit (disables trading and returns `None`),
then the Broker Link `submit_order` call; a venue exception is caught and
converted to `None`; on success the new order is recorded in `SUBMITTED`
state.  An empty script behaves like a raising venue call.

The quantity clamp (lines 280-284) is `clampQty` below: an over-cap request
is silently reduced to `max_contracts`. -/
def clampQty (cfg : TradingConfig) (quantity : Int) : Int :=
  if quantity > cfg.max_contracts then cfg.max_contracts else quantity

def place_order (cfg : TradingConfig) (st : ClientState)
    (script : List (Option String)) (symbol : String) (side : OrderSide)
    (quantity : Int) (order_type : OrderType) (price : Option Rat)
    (stop_price : Option Rat) : PlaceOutcome :=
  if st.connected = false then ⟨.notConnected, st, [], script⟩
  else if st.trading_enabled = false then ⟨.noOrder, st, [], script⟩
  else
    let q := clampQty cfg quantity
    if st.daily_pnl < -cfg.max_daily_loss then
      ⟨.noOrder, { st with trading_enabled := false }, [], script⟩
    else
      let sub : Submission := ⟨symbol, side, q, order_type, price, stop_price⟩
      match script with
      | [] => ⟨.noOrder, st, [sub], []⟩
      | none :: rest => ⟨.noOrder, st, [sub], rest⟩
      | some oid :: rest =>
          let o : Order :=
            ⟨oid, symbol, side, q, order_type, price, stop_price,
              .submitted, 0, 0⟩
          ⟨.placed o, { st with orders := assocSet st.orders oid o }, [sub], rest⟩

/-- Result of a boolean-returning client call that may raise
`RuntimeError` when disconnected. -/
inductive CallResult
  | notConnected : CallResult
  | ok : Bool → CallResult
deriving DecidableEq

/-- `TradingClient.cancel_order` (lines 342-355): requires connection;
calls the venue cancel (`brokerOk = false` models a raise, caught and turned
into `False`); on venue success marks the matching book entry CANCELLED —
with no check of its prior status — and returns `True`. -/
def cancel_order (st : ClientState) (order_id : String) (brokerOk : Bool) :
    CallResult × ClientState :=
  if st.connected = false then (.notConnected, st)
  else if brokerOk then
    (.ok true,
      { st with orders := st.orders.map fun p =>
          if p.1 = order_id then (p.1, { p.2 with status := .cancelled }) else p })
  else (.ok false, st)

/-- `TradingClient.cancel_all_orders` (lines 357-371): requires connection;
on venue success sets to CANCELLED exactly the book entries whose status is
PENDING or SUBMITTED (PARTIALLY_FILLED entries are left as they are) and
returns `True`; a venue raise is caught and returns `False`. -/
def cancel_all_orders (st : ClientState) (brokerOk : Bool) :
    CallResult × ClientState :=
  if st.connected = false then (.notConnected, st)
  else if brokerOk then
    (.ok true,
      { st with orders := st.orders.map fun p =>
          if p.2.status = OrderStatus.pending ∨ p.2.status = OrderStatus.submitted
          then (p.1, { p.2 with status := .cancelled }) else p })
  else (.ok false, st)

/-- `TradingClient.get_positions` (lines 388-411): when disconnected, the
cached ledger values; when connected, query the venue — on success wipe the
ledger and rebuild it from the response (wholesale replacement), on a raise
(`resp = none`) keep the ledger untouched and return the cached values. -/
def get_positions (st : ClientState) (resp : Option (List Position)) :
    List Position × ClientState :=
  if st.connected = false then (st.positions.map Prod.snd, st)
  else
    match resp with
    | none => (st.positions.map Prod.snd, st)
    | some ps =>
        let newPos := ps.foldl (fun acc p => assocSet acc p.symbol p) []
        (newPos.map Prod.snd, { st with positions := newPos })

/-- `TradingClient.close_position` (lines 413-434): `False` when the symbol
is absent from the ledger; `True` (no order) when the position is flat;
otherwise one opposite-side MARKET order for `abs(quantity)` through
`place_order`, succeeding iff an order came back. -/
def close_position (cfg : TradingConfig) (st : ClientState)
    (script : List (Option String)) (symbol : String) :
    CallResult × ClientState × List Submission × List (Option String) :=
  match st.positions.lookup symbol with
  | none => (.ok false, st, [], script)
  | some pos =>
      if pos.quantity = 0 then (.ok true, st, [], script)
      else
        let side := if pos.quantity > 0 then OrderSide.sell else OrderSide.buy
        let r := place_order cfg st script symbol side |pos.quantity| .market none none
        match r.result with
        | .notConnected => (.notConnected, r.state, r.subs, r.script)
        | .noOrder => (.ok false, r.state, r.subs, r.script)
        | .placed _ => (.ok true, r.state, r.subs, r.script)

/-- Outcome of `close_all_positions`: aggregate result, final state, all
broker submissions, remaining script, and (instrumentation) the per-symbol
boolean outcome of each `close_position` call, in iteration order. -/
structure CloseAllOutcome where
  result : CallResult
  state : ClientState
  subs : List Submission
  script : List (Option String)
  outcomes : List (String × Bool)
deriving DecidableEq

/-- The loop body of `TradingClient.close_all_positions` (lines 436-442) over
a snapshot of the ledger's keys: `success` starts `True` and is set `False`
by any failing close; a `RuntimeError` raised out of `close_position`
(disconnected, non-flat symbol) aborts the loop and propagates. -/
def closeAllGo (cfg : TradingConfig) :
    List String → ClientState → List (Option String) → CloseAllOutcome
  | [], st, script => ⟨.ok true, st, [], script, []⟩
  | sym :: rest, st, script =>
      match close_position cfg st script sym with
      | (.notConnected, st', subs', script') =>
          ⟨.notConnected, st', subs', script', []⟩
      | (.ok b, st', subs', script') =>
          let r := closeAllGo cfg rest st' script'
          match r.result with
          | .notConnected =>
              ⟨.notConnected, r.state, subs' ++ r.subs, r.script,
                (sym, b) :: r.outcomes⟩
          | .ok b' =>
              ⟨.ok (b && b'), r.state, subs' ++ r.subs, r.script,
                (sym, b) :: r.outcomes⟩

/-- `TradingClient.close_all_positions` (lines 436-442): iterates
`list(self._positions.keys())` and ANDs the `close_position` outcomes. -/
def close_all_positions (cfg : TradingConfig) (st : ClientState)
    (script : List (Option String)) : CloseAllOutcome :=
  closeAllGo cfg (st.positions.map Prod.fst) st script

/-- `TradingClient.enable_trading` (lines 518-521). -/
def enable_trading (st : ClientState) : ClientState :=
  { st with trading_enabled := true }

/-- `TradingClient.disable_trading` (lines 523-526). -/
def disable_trading (st : ClientState) : ClientState :=
  { st with trading_enabled := false }

/-- `TradingClient.reset_daily_stats` (lines 533-537): zero the daily PnL
and re-enable trading. -/
def reset_daily_stats (st : ClientState) : ClientState :=
  { st with daily_pnl := 0, trading_enabled := true }

/-- The `SignalRequest` pydantic model of api.py (confidence and prices as
rationals). -/
structure SignalRequest where
  signal_type : String
  symbol : String
  confidence : Rat
  entry_price : Option Rat
  stop_loss : Option Rat
  take_profit : Option Rat
  contracts : Int
deriving DecidableEq

/-- Python truthiness of an `Optional[float]`: `None` and `0.0` are falsy.
Used by api.py's `if signal.stop_loss and order:`. -/
def optTruthy : Option Rat → Bool
  | none => false
  | some x => if x = 0 then false else true

/-- Whether a `place_order` result is an actual order (`order` is a truthy
non-`None` value in Python). -/
def isPlaced : PlaceResult → Bool
  | .placed _ => true
  | _ => false

/-- Result of the `/signals/execute` endpoint (api.py `execute_signal`,
lines 376-451): HTTP 503 when disconnected, HTTP 403 when trading is
disabled, HTTP error for an unknown signal type, or a success response. -/
inductive SignalResult
  | notConnected : SignalResult
  | tradingDisabled : SignalResult
  | executed : SignalResult
  | exited : SignalResult
  | unknownSignal : SignalResult
deriving DecidableEq

structure SignalOutcome where
  result : SignalResult
  state : ClientState
  subs : List Submission
  script : List (Option String)
deriving DecidableEq

/-- api.py `execute_signal` (lines 376-451).  LONG/SHORT: one MARKET entry
order via `place_order`; then, if `signal.stop_loss` is truthy and the entry
returned an order, one opposite-side STOP order for `signal.contracts` at
`stop_price = signal.stop_loss`.  EXIT: `close_position` then
`cancel_all_orders` (whose boolean results are ignored).  Anything else is
rejected as an unknown signal type. -/
def execute_signal (cfg : TradingConfig) (st : ClientState)
    (script : List (Option String)) (cancelOk : Bool)
    (signal : SignalRequest) : SignalOutcome :=
  if st.connected = false then ⟨.notConnected, st, [], script⟩
  else if st.trading_enabled = false then ⟨.tradingDisabled, st, [], script⟩
  else if signal.signal_type = "LONG" then
    let r1 := place_order cfg st script signal.symbol .buy signal.contracts
      .market none none
    if optTruthy signal.stop_loss && isPlaced r1.result then
      let r2 := place_order cfg r1.state r1.script signal.symbol .sell
        signal.contracts .stop none signal.stop_loss
      ⟨.executed, r2.state, r1.subs ++ r2.subs, r2.script⟩
    else ⟨.executed, r1.state, r1.subs, r1.script⟩
  else if signal.signal_type = "SHORT" then
    let r1 := place_order cfg st script signal.symbol .sell signal.contracts
      .market none none
    if optTruthy signal.stop_loss && isPlaced r1.result then
      let r2 := place_order cfg r1.state r1.script signal.symbol .buy
        signal.contracts .stop none signal.stop_loss
      ⟨.executed, r2.state, r1.subs ++ r2.subs, r2.script⟩
    else ⟨.executed, r1.state, r1.subs, r1.script⟩
  else if signal.signal_type = "EXIT" then
    match close_position cfg st script signal.symbol with
    | (.notConnected, st', subs', script') => ⟨.notConnected, st', subs', script'⟩
    | (.ok _, st', subs', script') =>
        ⟨.exited, (cancel_all_orders st' cancelOk).2, subs', script'⟩
  else ⟨.unknownSignal, st, [], script⟩

/-- Result of the `/controls/emergency-stop` endpoint (api.py
`emergency_stop`, lines 479-488).  `raised` marks an uncaught
`RuntimeError` escaping as HTTP 500; otherwise `success` is the literal
`"success": True` of the response.  `cancelResult` / `closeResult` record
the two best-effort steps' boolean outcomes (instrumentation). -/
structure EmergencyOutcome where
  raised : Bool
  success : Bool
  cancelResult : Bool
  closeResult : Bool
  state : ClientState
  subs : List Submission
deriving DecidableEq

/-- api.py `emergency_stop`: `disable_trading()`, then
`cancel_all_orders()`, then `close_all_positions()`, then an unconditional
`{"success": True}` response. -/
def emergency_stop (cfg : TradingConfig) (st : ClientState)
    (cancelOk : Bool) (script : List (Option String)) : EmergencyOutcome :=
  let st1 := disable_trading st
  match cancel_all_orders st1 cancelOk with
  | (.notConnected, st2) => ⟨true, false, false, false, st2, []⟩
  | (.ok c, st2) =>
      let ca := close_all_positions cfg st2 script
      match ca.result with
      | .notConnected => ⟨true, false, c, false, ca.state, ca.subs⟩
      | .ok b => ⟨false, true, c, b, ca.state, ca.subs⟩

/-- The event alphabet of the daily-loss safety property: order submissions
(`place_order` with the given broker script), daily-PnL refreshes (the
`self._daily_pnl = account.daily_pnl` assignment in `get_account_info`,
covering loss-worsening updates), and the explicit `reset_daily_stats`
command. -/
inductive RiskEvent
  | submitOrder : List (Option String) → String → OrderSide → Int →
      OrderType → Option Rat → Option Rat → RiskEvent
  | setDailyPnl : Rat → RiskEvent
  | resetStats : RiskEvent

/-- State transition of one `RiskEvent`. -/
def riskStep (cfg : TradingConfig) (st : ClientState) : RiskEvent → ClientState
  | .submitOrder script symbol side q ot p sp =>
      (place_order cfg st script symbol side q ot p sp).state
  | .setDailyPnl p => { st with daily_pnl := p }
  | .resetStats => reset_daily_stats st

/-- Run a sequence of risk events. -/
def riskRun (cfg : TradingConfig) (st : ClientState)
    (evs : List RiskEvent) : ClientState :=
  evs.foldl (riskStep cfg) st

/-- Whether an event is the explicit reset command. -/
def isReset : RiskEvent → Bool
  | .resetStats => true
  | _ => false

/-- The order record `place_order` creates on a successful submit. -/
def submittedOrder (oid symbol : String) (side : OrderSide) (q : Int)
    (ot : OrderType) (p sp : Option Rat) : Order :=
  ⟨oid, symbol, side, q, ot, p, sp, .submitted, 0, 0⟩

/-- The state `place_order` leaves after a successful submit. -/
def submittedState (st : ClientState) (oid symbol : String) (side : OrderSide)
    (q : Int) (ot : OrderType) (p sp : Option Rat) : ClientState :=
  { st with orders := assocSet st.orders oid (submittedOrder oid symbol side q ot p sp) }

/-- max_contracts = 5, max_daily_loss = 1500 (the spec's scenario values). -/
def cfg0 : TradingConfig := ⟨5, 1500⟩

/-- Connected, trading enabled, flat PnL, empty books. -/
def st0 : ClientState := ⟨true, [], [], 0, true⟩

/-- A FILLED order sitting in the order book. -/
def filledOrder : Order :=
  ⟨"O1", "ESH5", .buy, 2, .market, none, none, .filled, 2, 4500⟩

/-- Connected, enabled client whose book holds the FILLED order `O1`. -/
def st3 : ClientState := ⟨true, [], [("O1", filledOrder)], 0, true⟩

/-- A PARTIALLY_FILLED order sitting in the order book. -/
def partFilledOrder : Order :=
  ⟨"O2", "ESH5", .buy, 3, .limit, some 4400, none, .partFilled, 1, 4400⟩

/-- A PENDING order sitting in the order book. -/
def pendingOrder : Order :=
  ⟨"O3", "ESH5", .sell, 1, .limit, some 4600, none, .pending, 0, 0⟩

/-- Connected, enabled client whose book holds the PARTIALLY_FILLED order
`O2` and the PENDING order `O3`. -/
def st9 : ClientState :=
  ⟨true, [], [("O2", partFilledOrder), ("O3", pendingOrder)], 0, true⟩

/-- Connected client long two lots of A and short three lots of B. -/
def st6 : ClientState :=
  ⟨true, [("A", ⟨"A", 2, 100, 0, 0⟩), ("B", ⟨"B", -3, 50, 0, 0⟩)], [], 0, true⟩

/-- A long two-contract ESH5 position. -/
def longPos : Position := ⟨"ESH5", 2, 4500, 0, 0⟩

/-- A flat position in symbol FLAT. -/
def flatPos : Position := ⟨"FLAT", 0, 0, 0, 0⟩

/-- Connected, enabled client holding `longPos` and `flatPos`. -/
def stP : ClientState :=
  ⟨true, [("ESH5", longPos), ("FLAT", flatPos)], [], 0, true⟩

end Trading

section Sanity
open Trading

example :
    (place_order ⟨5, 1500⟩ ⟨true, [], [], 0, true⟩ [some "A"] "ESH5"
      .buy 10 .market none none).result =
    .placed ⟨"A", "ESH5", .buy, 5, .market, none, none, .submitted, 0, 0⟩ := by
  decide

example : ((-1600 : Rat) < -(1500 : Rat)) := by decide

example :
    (place_order ⟨5, 1500⟩ ⟨true, [], [], -1600, true⟩ [some "A"] "ESH5"
      .buy 1 .market none none).state.trading_enabled = false := by decide

end Sanity

namespace Trading

/-! Helper lemmas characterizing `place_order` branch by branch. -/

theorem place_order_not_conn (cfg : TradingConfig) (st : ClientState)
    (script : List (Option String)) (symbol : String) (side : OrderSide)
    (q : Int) (ot : OrderType) (p sp : Option Rat)
    (h : st.connected = false) :
    place_order cfg st script symbol side q ot p sp =
      ⟨.notConnected, st, [], script⟩ := by
  simp [place_order, h]

theorem place_order_disabled (cfg : TradingConfig) (st : ClientState)
    (script : List (Option String)) (symbol : String) (side : OrderSide)
    (q : Int) (ot : OrderType) (p sp : Option Rat)
    (hc : st.connected = true) (he : st.trading_enabled = false) :
    place_order cfg st script symbol side q ot p sp =
      ⟨.noOrder, st, [], script⟩ := by
  simp [place_order, hc, he]

theorem place_order_loss_breach (cfg : TradingConfig) (st : ClientState)
    (script : List (Option String)) (symbol : String) (side : OrderSide)
    (q : Int) (ot : OrderType) (p sp : Option Rat)
    (hc : st.connected = true) (he : st.trading_enabled = true)
    (hl : st.daily_pnl < -cfg.max_daily_loss) :
    place_order cfg st script symbol side q ot p sp =
      ⟨.noOrder, { st with trading_enabled := false }, [], script⟩ := by
  simp [place_order, hc, he, hl]

theorem place_order_submit (cfg : TradingConfig) (st : ClientState)
    (script : List (Option String)) (symbol : String) (side : OrderSide)
    (q : Int) (ot : OrderType) (p sp : Option Rat)
    (hc : st.connected = true) (he : st.trading_enabled = true)
    (hl : ¬ st.daily_pnl < -cfg.max_daily_loss) :
    place_order cfg st script symbol side q ot p sp =
      (match script with
       | [] => ⟨.noOrder, st, [⟨symbol, side, clampQty cfg q, ot, p, sp⟩], []⟩
       | none :: rest =>
           ⟨.noOrder, st, [⟨symbol, side, clampQty cfg q, ot, p, sp⟩], rest⟩
       | some oid :: rest =>
           ⟨.placed (submittedOrder oid symbol side (clampQty cfg q) ot p sp),
             submittedState st oid symbol side (clampQty cfg q) ot p sp,
             [⟨symbol, side, clampQty cfg q, ot, p, sp⟩], rest⟩) := by
  simp [place_order, hc, he, hl, submittedOrder, submittedState]

/-- `place_order` never touches the connection flag, the daily PnL figure or
the position ledger. -/
theorem place_order_state_inv (cfg : TradingConfig) (st : ClientState)
    (script : List (Option String)) (symbol : String) (side : OrderSide)
    (q : Int) (ot : OrderType) (p sp : Option Rat) :
    (place_order cfg st script symbol side q ot p sp).state.connected = st.connected ∧
    (place_order cfg st script symbol side q ot p sp).state.daily_pnl = st.daily_pnl ∧
    (place_order cfg st script symbol side q ot p sp).state.positions = st.positions := by
  unfold place_order
  repeat' split
  all_goals simp_all

/-- Once the trading-enabled flag is down, `place_order` neither raises it
nor changes any state. -/
theorem place_order_keeps_disabled (cfg : TradingConfig) (st : ClientState)
    (script : List (Option String)) (symbol : String) (side : OrderSide)
    (q : Int) (ot : OrderType) (p sp : Option Rat)
    (he : st.trading_enabled = false) :
    (place_order cfg st script symbol side q ot p sp).state = st := by
  cases hc : st.connected
  · rw [place_order_not_conn cfg st script symbol side q ot p sp hc]
  · rw [place_order_disabled cfg st script symbol side q ot p sp hc he]

/-! Concrete fixtures used by witnesses and counterexamples. -/

/-- Claim C1: a `place_order` call whose requested quantity exceeds
`max_contracts` behaves exactly like the same call requesting the cap
itself — so the excess quantity alone never causes a rejection — and any
order that comes back carries quantity `max_contracts`, never more. -/
theorem C1_place_order_clamps_over_cap (cfg : TradingConfig)
    (st : ClientState) (script : List (Option String)) (symbol : String)
    (side : OrderSide) (quantity : Int) (ot : OrderType) (p sp : Option Rat)
    (hq : quantity > cfg.max_contracts) :
    place_order cfg st script symbol side quantity ot p sp =
      place_order cfg st script symbol side cfg.max_contracts ot p sp ∧
    ∀ o, (place_order cfg st script symbol side quantity ot p sp).result =
        PlaceResult.placed o → o.quantity = cfg.max_contracts := by
  have hclamp : clampQty cfg quantity = cfg.max_contracts := if_pos hq
  have hclamp2 : clampQty cfg cfg.max_contracts = cfg.max_contracts := by
    simp [clampQty]
  constructor
  · simp only [place_order, hclamp, hclamp2]
  · intro o ho
    simp only [place_order, hclamp] at ho
    repeat' split at ho
    all_goals simp_all
    subst ho
    rfl

/-- Witness for C1: requesting 10 contracts against cap 5, while connected
and enabled, is the same call as requesting 5. -/
theorem C1_witness :
    (10 : Int) > cfg0.max_contracts ∧
    place_order cfg0 st0 [some "A"] "ESH5" .buy 10 .market none none =
      place_order cfg0 st0 [some "A"] "ESH5" .buy cfg0.max_contracts .market
        none none :=
  ⟨by decide,
    (C1_place_order_clamps_over_cap cfg0 st0 [some "A"] "ESH5" .buy 10
      .market none none (by decide)).1⟩

/-- Claim C8: `place_order` while trading is disabled yields no order, and
its outcome differs from the disconnected outcome — the disabled rejection
is the `noOrder` (Python `None`) result while disconnection raises
`RuntimeError`, so `NotConnected` is never the reported cause of a
disabled-trading rejection. -/
theorem C8_disabled_distinct_from_not_connected (cfg : TradingConfig)
    (st st' : ClientState) (script : List (Option String)) (symbol : String)
    (side : OrderSide) (q : Int) (ot : OrderType) (p sp : Option Rat)
    (hc : st.connected = true) (he : st.trading_enabled = false)
    (hc' : st'.connected = false) :
    (place_order cfg st script symbol side q ot p sp).result = .noOrder ∧
    (place_order cfg st' script symbol side q ot p sp).result = .notConnected ∧
    (place_order cfg st script symbol side q ot p sp).result ≠
      (place_order cfg st' script symbol side q ot p sp).result := by
  rw [place_order_disabled cfg st script symbol side q ot p sp hc he,
    place_order_not_conn cfg st' script symbol side q ot p sp hc']
  refine ⟨rfl, rfl, ?_⟩
  simp

/-- Witness for C8: connected-but-disabled versus disconnected, same
arguments, distinguishable outcomes. -/
theorem C8_witness :
    (⟨true, [], [], 0, false⟩ : ClientState).connected = true ∧
    (⟨true, [], [], 0, false⟩ : ClientState).trading_enabled = false ∧
    (⟨false, [], [], 0, true⟩ : ClientState).connected = false ∧
    ((place_order cfg0 ⟨true, [], [], 0, false⟩ [some "A"] "ESH5" .buy 1
        .market none none).result = .noOrder ∧
      (place_order cfg0 ⟨false, [], [], 0, true⟩ [some "A"] "ESH5" .buy 1
        .market none none).result = .notConnected ∧
      (place_order cfg0 ⟨true, [], [], 0, false⟩ [some "A"] "ESH5" .buy 1
        .market none none).result ≠
        (place_order cfg0 ⟨false, [], [], 0, true⟩ [some "A"] "ESH5" .buy 1
          .market none none).result) :=
  ⟨rfl, rfl, rfl,
    C8_disabled_distinct_from_not_connected cfg0 ⟨true, [], [], 0, false⟩
      ⟨false, [], [], 0, true⟩ [some "A"] "ESH5" .buy 1 .market none none
      rfl rfl rfl⟩

/-- Claim C10: while connected, a raising Broker Link positions query
(`resp = none`) leaves the Position Ledger exactly as it was and returns the
cached snapshot; the ledger is replaced wholesale — rebuilt from the venue
response alone, independent of its previous contents — only when the query
returns successfully. -/
theorem C10_get_positions_error_preserves_ledger (st : ClientState)
    (hc : st.connected = true) :
    (get_positions st none).2 = st ∧
    (get_positions st none).1 = st.positions.map Prod.snd ∧
    ∀ ps, (get_positions st (some ps)).2.positions =
      ps.foldl (fun acc p => assocSet acc p.symbol p) [] := by
  refine ⟨?_, ?_, ?_⟩ <;> simp [get_positions, hc]

/-- Witness for C10: a connected client with one cached position keeps it
across a failing venue query, and a successful query rebuilds the ledger
from the response alone. -/
theorem C10_witness :
    (⟨true, [("ESH5", ⟨"ESH5", 2, 4500, 0, 0⟩)], [], 0, true⟩ :
        ClientState).connected = true ∧
    ((get_positions ⟨true, [("ESH5", ⟨"ESH5", 2, 4500, 0, 0⟩)], [], 0, true⟩
        none).2 = ⟨true, [("ESH5", ⟨"ESH5", 2, 4500, 0, 0⟩)], [], 0, true⟩ ∧
      (get_positions ⟨true, [("ESH5", ⟨"ESH5", 2, 4500, 0, 0⟩)], [], 0, true⟩
        none).1 = [⟨"ESH5", 2, 4500, 0, 0⟩] ∧
      ∀ ps, (get_positions
          ⟨true, [("ESH5", ⟨"ESH5", 2, 4500, 0, 0⟩)], [], 0, true⟩
          (some ps)).2.positions =
        ps.foldl (fun acc p => assocSet acc p.symbol p) []) :=
  ⟨rfl, by
    have h := C10_get_positions_error_preserves_ledger
      ⟨true, [("ESH5", ⟨"ESH5", 2, 4500, 0, 0⟩)], [], 0, true⟩ rfl
    exact ⟨h.1, h.2.1, h.2.2⟩⟩

/-- A non-reset risk event never raises the trading-enabled flag. -/
theorem riskStep_keeps_disabled (cfg : TradingConfig) (st : ClientState)
    (e : RiskEvent) (he : st.trading_enabled = false)
    (hne : isReset e = false) :
    (riskStep cfg st e).trading_enabled = false := by
  cases e with
  | submitOrder script symbol side q ot p sp =>
      show (place_order cfg st script symbol side q ot p sp).state.trading_enabled = false
      rw [place_order_keeps_disabled cfg st script symbol side q ot p sp he]
      exact he
  | setDailyPnl pnl => exact he
  | resetStats => simp [isReset] at hne

/-- A reset-free event sequence never raises the trading-enabled flag. -/
theorem riskRun_keeps_disabled (cfg : TradingConfig) (evs : List RiskEvent) :
    ∀ st : ClientState, st.trading_enabled = false →
      (∀ e ∈ evs, isReset e = false) →
      (riskRun cfg st evs).trading_enabled = false := by
  induction evs with
  | nil => intro st h _; exact h
  | cons e rest ih =>
      intro st h hnr
      have hstep : (riskStep cfg st e).trading_enabled = false :=
        riskStep_keeps_disabled cfg st e h (hnr e (by simp))
      have : riskRun cfg st (e :: rest) = riskRun cfg (riskStep cfg st e) rest := rfl
      rw [this]
      exact ih (riskStep cfg st e) hstep fun e' he' => hnr e' (by simp [he'])

/-- Claim C2: once the running daily PnL is below `-max_daily_loss` and an
order submission is attempted while connected, the trading-enabled flag is
false immediately afterwards and remains false across every further
reset-free sequence of order submissions and daily-PnL updates; the explicit
`reset_daily_stats` command is what re-enables it. -/
theorem C2_daily_loss_disable_is_sticky (cfg : TradingConfig)
    (st : ClientState) (script : List (Option String)) (symbol : String)
    (side : OrderSide) (q : Int) (ot : OrderType) (p sp : Option Rat)
    (evs : List RiskEvent) (hc : st.connected = true)
    (hl : st.daily_pnl < -cfg.max_daily_loss)
    (hnr : ∀ e ∈ evs, isReset e = false) :
    (riskStep cfg st (.submitOrder script symbol side q ot p sp)).trading_enabled
        = false ∧
    (riskRun cfg (riskStep cfg st (.submitOrder script symbol side q ot p sp))
        evs).trading_enabled = false ∧
    ∀ st2 : ClientState, (riskStep cfg st2 .resetStats).trading_enabled = true := by
  have hstep : (riskStep cfg st
      (.submitOrder script symbol side q ot p sp)).trading_enabled = false := by
    show (place_order cfg st script symbol side q ot p sp).state.trading_enabled = false
    cases he : st.trading_enabled
    · rw [place_order_keeps_disabled cfg st script symbol side q ot p sp he]
      exact he
    · rw [place_order_loss_breach cfg st script symbol side q ot p sp hc he hl]
  exact ⟨hstep, riskRun_keeps_disabled cfg evs _ hstep hnr,
    fun st2 => rfl⟩

/-- Witness for C2: PnL −1600 against a 1500 loss cap, one attempted order,
then a further loss-worsening update and another attempted order. -/
theorem C2_witness :
    (⟨true, [], [], -1600, true⟩ : ClientState).connected = true ∧
    (⟨true, [], [], -1600, true⟩ : ClientState).daily_pnl <
      -cfg0.max_daily_loss ∧
    (∀ e ∈ ([.setDailyPnl (-2000),
        .submitOrder [some "B"] "ESH5" .buy 1 .market none none] :
        List RiskEvent), isReset e = false) ∧
    (riskRun cfg0
      (riskStep cfg0 ⟨true, [], [], -1600, true⟩
        (.submitOrder [some "A"] "ESH5" .buy 1 .market none none))
      [.setDailyPnl (-2000),
        .submitOrder [some "B"] "ESH5" .buy 1 .market none none]).trading_enabled
      = false := by
  have hnr : ∀ e ∈ ([.setDailyPnl (-2000),
      .submitOrder [some "B"] "ESH5" .buy 1 .market none none] :
      List RiskEvent), isReset e = false := by
    intro e he
    simp only [List.mem_cons, List.not_mem_nil, or_false] at he
    rcases he with rfl | rfl <;> rfl
  refine ⟨rfl, by decide, hnr, ?_⟩
  exact (C2_daily_loss_disable_is_sticky cfg0 ⟨true, [], [], -1600, true⟩
    [some "A"] "ESH5" .buy 1 .market none none _ rfl (by decide) hnr).2.1

/-- Counterexample to claim C3 as stated: cancelling the FILLED order `O1`
while the Broker Link accepts the cancel returns success (`ok true`, not
failure) and rewrites the order's status from FILLED to CANCELLED — the
claim predicted failure and an unchanged status. -/
theorem C3_counterexample :
    (st3.orders.lookup "O1").map Order.status = some .filled ∧
    (cancel_order st3 "O1" true).1 = .ok true ∧
    ((cancel_order st3 "O1" true).2.orders.lookup "O1").map Order.status =
      some .cancelled ∧
    ¬((cancel_order st3 "O1" true).1 = .ok false ∧
      ((cancel_order st3 "O1" true).2.orders.lookup "O1").map Order.status =
        some .filled) := by
  decide

/-- Updating the value at a present key through a key-preserving map. -/
theorem lookup_map_update {α : Type} (l : List (String × α)) (k : String)
    (g : α → α) (o : α) (h : l.lookup k = some o) :
    (l.map fun p => if p.1 = k then (p.1, g p.2) else p).lookup k =
      some (g o) := by
  induction l with
  | nil => simp at h
  | cons hd tl ih =>
      obtain ⟨a, b⟩ := hd
      by_cases hk : k = a
      · subst hk
        simp [List.lookup_cons] at h
        subst h
        simp [List.lookup_cons]
      · have hba : (k == a) = false := beq_eq_false_iff_ne.mpr hk
        simp only [List.lookup_cons, hba] at h
        simp only [List.map_cons]
        rw [if_neg (fun hh : a = k => hk hh.symm)]
        simp only [List.lookup_cons, hba]
        exact ih h

/-- Claim C3, amended: `cancel_order` never inspects the order's prior
status.  While connected, a Broker-Link-accepted cancel returns success and
overwrites the identified order's status with CANCELLED whatever it was
(FILLED, REJECTED and CANCELLED included); only a raising Broker Link cancel
yields failure, and that path leaves the entire state unchanged. -/
theorem C3_cancel_order_ignores_status (st : ClientState) (oid : String)
    (o : Order) (hc : st.connected = true)
    (ho : st.orders.lookup oid = some o) :
    (cancel_order st oid true).1 = .ok true ∧
    (cancel_order st oid true).2.orders.lookup oid =
      some { o with status := .cancelled } ∧
    cancel_order st oid false = (.ok false, st) := by
  refine ⟨by simp [cancel_order, hc], ?_, by simp [cancel_order, hc]⟩
  have hred : (cancel_order st oid true).2.orders =
      st.orders.map fun p =>
        if p.1 = oid then (p.1, { p.2 with status := OrderStatus.cancelled })
        else p := by
    simp [cancel_order, hc]
  rw [hred]
  exact lookup_map_update st.orders oid
    (fun ord => { ord with status := OrderStatus.cancelled }) o ho

/-- Witness for the amended C3 at the FILLED order `O1`. -/
theorem C3_witness :
    st3.connected = true ∧
    st3.orders.lookup "O1" = some filledOrder ∧
    ((cancel_order st3 "O1" true).1 = .ok true ∧
      (cancel_order st3 "O1" true).2.orders.lookup "O1" =
        some { filledOrder with status := .cancelled } ∧
      cancel_order st3 "O1" false = (.ok false, st3)) :=
  ⟨rfl, rfl, C3_cancel_order_ignores_status st3 "O1" filledOrder rfl rfl⟩

/-- Claim C9 (code bug): a Broker-Link-successful `cancel_all_orders` marks
the PENDING order CANCELLED but leaves the PARTIALLY_FILLED order `O2`
untouched — its status-update filter lists only PENDING and SUBMITTED,
although the same file counts PARTIALLY_FILLED among the open orders and the
spec's lifecycle allows PARTIALLY_FILLED → CANCELLED. -/
theorem C9_cancel_all_skips_partially_filled :
    (cancel_all_orders st9 true).1 = .ok true ∧
    ((cancel_all_orders st9 true).2.orders.lookup "O2").map Order.status =
      some .partFilled ∧
    ((cancel_all_orders st9 true).2.orders.lookup "O3").map Order.status =
      some .cancelled := by
  decide

theorem place_order_conn (cfg : TradingConfig) (st : ClientState)
    (script : List (Option String)) (symbol : String) (side : OrderSide)
    (q : Int) (ot : OrderType) (p sp : Option Rat) :
    (place_order cfg st script symbol side q ot p sp).state.connected =
      st.connected :=
  (place_order_state_inv cfg st script symbol side q ot p sp).1

theorem place_order_no_notconn (cfg : TradingConfig) (st : ClientState)
    (script : List (Option String)) (symbol : String) (side : OrderSide)
    (q : Int) (ot : OrderType) (p sp : Option Rat)
    (hc : st.connected = true) :
    (place_order cfg st script symbol side q ot p sp).result ≠
      PlaceResult.notConnected := by
  unfold place_order
  simp only [hc]
  repeat' split
  all_goals simp_all

theorem close_position_absent (cfg : TradingConfig) (st : ClientState)
    (script : List (Option String)) (sym : String)
    (h : st.positions.lookup sym = none) :
    close_position cfg st script sym = (.ok false, st, [], script) := by
  simp [close_position, h]

theorem close_position_flat (cfg : TradingConfig) (st : ClientState)
    (script : List (Option String)) (sym : String) (pos : Position)
    (h : st.positions.lookup sym = some pos) (h0 : pos.quantity = 0) :
    close_position cfg st script sym = (.ok true, st, [], script) := by
  simp [close_position, h, h0]

theorem close_position_nonflat (cfg : TradingConfig) (st : ClientState)
    (script : List (Option String)) (sym : String) (pos : Position)
    (h : st.positions.lookup sym = some pos) (h0 : pos.quantity ≠ 0) :
    close_position cfg st script sym =
      (let r := place_order cfg st script sym
        (if pos.quantity > 0 then OrderSide.sell else OrderSide.buy)
        |pos.quantity| .market none none
      match r.result with
      | .notConnected => (.notConnected, r.state, r.subs, r.script)
      | .noOrder => (.ok false, r.state, r.subs, r.script)
      | .placed _ => (.ok true, r.state, r.subs, r.script)) := by
  simp [close_position, h, h0]

theorem close_position_conn (cfg : TradingConfig) (st : ClientState)
    (script : List (Option String)) (sym : String) :
    (close_position cfg st script sym).2.1.connected = st.connected := by
  cases hl : st.positions.lookup sym with
  | none => rw [close_position_absent cfg st script sym hl]
  | some pos =>
      by_cases h0 : pos.quantity = 0
      · rw [close_position_flat cfg st script sym pos hl h0]
      · rw [close_position_nonflat cfg st script sym pos hl h0]
        cases hres : (place_order cfg st script sym
            (if pos.quantity > 0 then OrderSide.sell else OrderSide.buy)
            |pos.quantity| .market none none).result <;>
          simp [hres, place_order_conn]

theorem close_position_ok (cfg : TradingConfig) (st : ClientState)
    (script : List (Option String)) (sym : String)
    (hc : st.connected = true) :
    ∃ b, (close_position cfg st script sym).1 = CallResult.ok b := by
  cases hl : st.positions.lookup sym with
  | none => rw [close_position_absent cfg st script sym hl]; exact ⟨false, rfl⟩
  | some pos =>
      by_cases h0 : pos.quantity = 0
      · rw [close_position_flat cfg st script sym pos hl h0]; exact ⟨true, rfl⟩
      · rw [close_position_nonflat cfg st script sym pos hl h0]
        cases hres : (place_order cfg st script sym
            (if pos.quantity > 0 then OrderSide.sell else OrderSide.buy)
            |pos.quantity| .market none none).result with
        | notConnected =>
            exact absurd hres (place_order_no_notconn cfg st script sym _ _ _
              none none hc)
        | noOrder => exact ⟨false, by simp [hres]⟩
        | placed o => exact ⟨true, by simp [hres]⟩

theorem closeAllGo_spec (cfg : TradingConfig) (syms : List String) :
    ∀ (st : ClientState) (script : List (Option String)),
      st.connected = true →
      (closeAllGo cfg syms st script).outcomes.map Prod.fst = syms ∧
      (closeAllGo cfg syms st script).result =
        .ok ((closeAllGo cfg syms st script).outcomes.all fun p => p.2) := by
  induction syms with
  | nil => intro st script hc; exact ⟨rfl, rfl⟩
  | cons sym rest ih =>
      intro st script hc
      obtain ⟨b, hb⟩ := close_position_ok cfg st script sym hc
      have hconn := close_position_conn cfg st script sym
      rcases hcp : close_position cfg st script sym with ⟨res, st', subs', script'⟩
      rw [hcp] at hb hconn
      simp only at hb hconn
      subst hb
      rw [hc] at hconn
      obtain ⟨houtc, hres⟩ := ih st' script' hconn
      simp only [closeAllGo, hcp, hres]
      refine ⟨?_, ?_⟩
      · simp [houtc]
      · simp

/-- Claim C6: while connected, `close_all_positions` records one
`close_position` outcome for every symbol of the ledger, in order —
continuing past failures rather than stopping at the first — and its
aggregate result is exactly the logical AND of those per-symbol outcomes,
so any single failure makes the whole call report failure. -/
theorem C6_close_all_continue_on_error (cfg : TradingConfig)
    (st : ClientState) (script : List (Option String))
    (hc : st.connected = true) :
    (close_all_positions cfg st script).outcomes.map Prod.fst =
      st.positions.map Prod.fst ∧
    (close_all_positions cfg st script).result =
      .ok ((close_all_positions cfg st script).outcomes.all fun p => p.2) :=
  closeAllGo_spec cfg (st.positions.map Prod.fst) st script hc

/-- Witness for C6: with the Broker Link raising on the first close and
accepting the second, both symbols are still attempted (outcomes
`[(A, false), (B, true)]`, one submission each) and the aggregate
is the AND of the outcomes, hence failure. -/
theorem C6_witness :
    st6.connected = true ∧
    ((close_all_positions cfg0 st6 [none, some "X"]).outcomes.map Prod.fst =
        st6.positions.map Prod.fst ∧
      (close_all_positions cfg0 st6 [none, some "X"]).result =
        .ok ((close_all_positions cfg0 st6 [none, some "X"]).outcomes.all
          fun p => p.2)) ∧
    (close_all_positions cfg0 st6 [none, some "X"]).outcomes =
      [("A", false), ("B", true)] ∧
    (close_all_positions cfg0 st6 [none, some "X"]).result = .ok false ∧
    (close_all_positions cfg0 st6 [none, some "X"]).subs =
      [⟨"A", .sell, 2, .market, none, none⟩,
        ⟨"B", .buy, 3, .market, none, none⟩] :=
  ⟨rfl, C6_close_all_continue_on_error cfg0 st6 [none, some "X"] rfl,
    by decide, by decide, by decide⟩

/-- Counterexample to claim C4 as stated: with the Broker Link cancel
failing (and nothing to close), `emergency_stop` still answers
`success = true`, while the logical AND of its two best-effort steps is
`false` — the composite's reported success is not that AND. -/
theorem C4_counterexample :
    (emergency_stop cfg0 st0 false []).raised = false ∧
    (emergency_stop cfg0 st0 false []).success = true ∧
    ((emergency_stop cfg0 st0 false []).cancelResult &&
      (emergency_stop cfg0 st0 false []).closeResult) = false ∧
    (emergency_stop cfg0 st0 false []).success ≠
      ((emergency_stop cfg0 st0 false []).cancelResult &&
        (emergency_stop cfg0 st0 false []).closeResult) := by
  decide

/-- While connected, `cancel_all_orders` returns exactly the Broker Link
outcome and never changes the connection flag. -/
theorem cancel_all_conn_eq (st : ClientState) (cancelOk : Bool)
    (hc : st.connected = true) :
    cancel_all_orders st cancelOk =
      (.ok cancelOk, (cancel_all_orders st cancelOk).2) ∧
    (cancel_all_orders st cancelOk).2.connected = st.connected := by
  cases cancelOk <;> simp [cancel_all_orders, hc]

/-- Claim C4, amended: while connected, `emergency_stop` disables trading,
then best-effort cancels all orders, then best-effort closes all positions
on the resulting state, in that fixed order and regardless of the cancel
step's outcome — but it reports the composite's success unconditionally as
`true`, not as the logical AND of the two steps' results. -/
theorem C4_emergency_stop_unconditional_success (cfg : TradingConfig)
    (st : ClientState) (cancelOk : Bool) (script : List (Option String))
    (hc : st.connected = true) :
    emergency_stop cfg st cancelOk script =
      ⟨false, true, cancelOk,
        (close_all_positions cfg
          (cancel_all_orders (disable_trading st) cancelOk).2 script).outcomes.all
          (fun p => p.2),
        (close_all_positions cfg
          (cancel_all_orders (disable_trading st) cancelOk).2 script).state,
        (close_all_positions cfg
          (cancel_all_orders (disable_trading st) cancelOk).2 script).subs⟩ := by
  have hdc : (disable_trading st).connected = true := hc
  obtain ⟨hca, hc2⟩ := cancel_all_conn_eq (disable_trading st) cancelOk hdc
  rw [hdc] at hc2
  unfold emergency_stop
  rcases hpair : cancel_all_orders (disable_trading st) cancelOk with ⟨res, st2⟩
  have hres : res = .ok cancelOk := by
    rw [hpair] at hca
    exact (Prod.mk.injEq _ _ _ _).mp hca |>.1
  subst hres
  rw [hpair] at hc2
  simp only at hc2
  have hclspec := (closeAllGo_spec cfg (st2.positions.map Prod.fst) st2 script hc2).2
  rcases hcl : close_all_positions cfg st2 script with
    ⟨car, cast, casubs, cascript, caouts⟩
  have hcar : car = .ok (caouts.all fun p => p.2) := by
    have hh : (close_all_positions cfg st2 script).result =
        .ok ((close_all_positions cfg st2 script).outcomes.all fun p => p.2) :=
      hclspec
    rw [hcl] at hh
    exact hh
  subst hcar
  simp only [hpair, hcl]

/-- Witness for the amended C4: connected client with two open positions,
Broker Link cancel failing — the close step still runs (on the now-disabled
state) and the response still reports `success = true`. -/
theorem C4_witness :
    st6.connected = true ∧
    emergency_stop cfg0 st6 false [some "X"] =
      ⟨false, true, false,
        (close_all_positions cfg0
          (cancel_all_orders (disable_trading st6) false).2 [some "X"]).outcomes.all
          (fun p => p.2),
        (close_all_positions cfg0
          (cancel_all_orders (disable_trading st6) false).2 [some "X"]).state,
        (close_all_positions cfg0
          (cancel_all_orders (disable_trading st6) false).2 [some "X"]).subs⟩ :=
  ⟨rfl, C4_emergency_stop_unconditional_success cfg0 st6 false [some "X"] rfl⟩

/-- Counterexample to claim C5 as stated: closing a symbol that is absent
from the ledger returns failure (`ok false`), not the no-op success the
claim promises. -/
theorem C5_counterexample :
    st0.positions.lookup "ESH5" = none ∧
    (close_position cfg0 st0 [] "ESH5").1 = .ok false ∧
    (CallResult.ok false) ≠ .ok true := by
  decide

/-- Claim C5, amended: `close_position` is a no-op returning success only
when the symbol's position exists and is flat; an absent symbol is a no-op
returning failure; otherwise the call is exactly one `place_order`
invocation for a MARKET order on the opposite side sized `abs(quantity)`,
succeeding iff that invocation returned an order (hence still subject to
the Risk Gate and Broker Link failure handling). -/
theorem C5_close_position_cases (cfg : TradingConfig) (st : ClientState)
    (script : List (Option String)) (symbol : String) :
    (st.positions.lookup symbol = none →
      close_position cfg st script symbol = (.ok false, st, [], script)) ∧
    (∀ pos : Position, st.positions.lookup symbol = some pos →
      pos.quantity = 0 →
      close_position cfg st script symbol = (.ok true, st, [], script)) ∧
    (∀ pos : Position, st.positions.lookup symbol = some pos →
      pos.quantity ≠ 0 →
      close_position cfg st script symbol =
        (let r := place_order cfg st script symbol
          (if pos.quantity > 0 then OrderSide.sell else OrderSide.buy)
          |pos.quantity| .market none none
        match r.result with
        | .notConnected => (.notConnected, r.state, r.subs, r.script)
        | .noOrder => (.ok false, r.state, r.subs, r.script)
        | .placed _ => (.ok true, r.state, r.subs, r.script))) := by
  refine ⟨fun h => by simp [close_position, h], fun pos h h0 => by
    simp [close_position, h, h0], fun pos h h0 => by
    simp [close_position, h, h0]⟩

/-- Witness for the amended C5: an absent symbol fails as a no-op, a flat
position succeeds as a no-op, and a long two-lot position is closed through
a single `place_order` MARKET SELL for two contracts. -/
theorem C5_witness :
    (st0.positions.lookup "ESH5" = none ∧
      close_position cfg0 st0 [] "ESH5" = (.ok false, st0, [], [])) ∧
    (stP.positions.lookup "FLAT" = some flatPos ∧ flatPos.quantity = 0 ∧
      close_position cfg0 stP [] "FLAT" = (.ok true, stP, [], [])) ∧
    (stP.positions.lookup "ESH5" = some longPos ∧ longPos.quantity ≠ 0 ∧
      close_position cfg0 stP [some "X"] "ESH5" =
        (.ok true,
          (place_order cfg0 stP [some "X"] "ESH5" .sell 2 .market none none).state,
          (place_order cfg0 stP [some "X"] "ESH5" .sell 2 .market none none).subs,
          (place_order cfg0 stP [some "X"] "ESH5" .sell 2 .market none none).script)) := by
  refine ⟨⟨rfl, (C5_close_position_cases cfg0 st0 [] "ESH5").1 rfl⟩,
    ⟨rfl, rfl, (C5_close_position_cases cfg0 stP [] "FLAT").2.1 flatPos rfl rfl⟩,
    ⟨rfl, by decide, ?_⟩⟩
  have h := (C5_close_position_cases cfg0 stP [some "X"] "ESH5").2.2 longPos
    rfl (by decide)
  exact h

/-- If a `place_order` call returned an order, the gate was passed: the
client was connected and enabled, the daily loss cap was not breached,
exactly one broker submission (with the clamped quantity) was made, and the
enable flag survived. -/
theorem place_order_placed_inv (cfg : TradingConfig) (st : ClientState)
    (script : List (Option String)) (symbol : String) (side : OrderSide)
    (q : Int) (ot : OrderType) (p sp : Option Rat) (o : Order)
    (h : (place_order cfg st script symbol side q ot p sp).result = .placed o) :
    st.connected = true ∧ st.trading_enabled = true ∧
    ¬ st.daily_pnl < -cfg.max_daily_loss ∧
    (place_order cfg st script symbol side q ot p sp).subs =
      [⟨symbol, side, clampQty cfg q, ot, p, sp⟩] ∧
    (place_order cfg st script symbol side q ot p sp).state.trading_enabled =
      st.trading_enabled := by
  unfold place_order at h ⊢
  repeat' split at h
  all_goals try simp_all
  rename_i hc' he' hls
  have hnl : ¬ st.daily_pnl < -cfg.max_daily_loss := not_lt.mpr hls
  rw [if_neg hnl]
  exact ⟨rfl, rfl⟩

/-- Whenever the gate is passed, `place_order` makes exactly one broker
submission carrying the clamped quantity — whatever the venue answers. -/
theorem place_order_subs_of_gate (cfg : TradingConfig) (st : ClientState)
    (script : List (Option String)) (symbol : String) (side : OrderSide)
    (q : Int) (ot : OrderType) (p sp : Option Rat)
    (hc : st.connected = true) (he : st.trading_enabled = true)
    (hl : ¬ st.daily_pnl < -cfg.max_daily_loss) :
    (place_order cfg st script symbol side q ot p sp).subs =
      [⟨symbol, side, clampQty cfg q, ot, p, sp⟩] := by
  rw [place_order_submit cfg st script symbol side q ot p sp hc he hl]
  rcases script with _ | ⟨_ | oid, rest⟩ <;> rfl

/-- Claim C7, amended: with a connected, enabled gate, a LONG (or SHORT)
signal whose supplied stop-loss price is nonzero and whose MARKET entry
order succeeds produces exactly two Broker Link submissions — the
entry-side MARKET order and then the opposite-side STOP order at the given
stop price, each sized at the risk-clamped quantity
`clampQty cfg contracts` (= `contracts` when within the cap); when the
stop-loss is absent or zero (Python falsy) or the entry fails, only the
entry path's submissions are made. -/
theorem C7_execute_signal_protective_stop (cfg : TradingConfig)
    (st : ClientState) (script : List (Option String)) (cancelOk : Bool)
    (sig : SignalRequest) (eside xside : OrderSide)
    (hc : st.connected = true) (he : st.trading_enabled = true)
    (hty : (sig.signal_type = "LONG" ∧ eside = OrderSide.buy ∧
        xside = OrderSide.sell) ∨
      (sig.signal_type = "SHORT" ∧ eside = OrderSide.sell ∧
        xside = OrderSide.buy)) :
    (∀ sl, sig.stop_loss = some sl → ¬ sl = 0 →
      ∀ o, (place_order cfg st script sig.symbol eside sig.contracts .market
        none none).result = .placed o →
      (execute_signal cfg st script cancelOk sig).subs =
        [⟨sig.symbol, eside, clampQty cfg sig.contracts, .market, none, none⟩,
         ⟨sig.symbol, xside, clampQty cfg sig.contracts, .stop, none, some sl⟩]) ∧
    ((optTruthy sig.stop_loss = false ∨
        isPlaced (place_order cfg st script sig.symbol eside sig.contracts
          .market none none).result = false) →
      (execute_signal cfg st script cancelOk sig).subs =
        (place_order cfg st script sig.symbol eside sig.contracts .market
          none none).subs) := by
  rcases hty with ⟨hL, rfl, rfl⟩ | ⟨hS, rfl, rfl⟩
  · constructor
    · intro sl hsl hnz o hplaced
      have hinv := place_order_placed_inv cfg st script sig.symbol .buy
        sig.contracts .market none none o hplaced
      have hsinv := place_order_state_inv cfg st script sig.symbol .buy
        sig.contracts .market none none
      have hc2 : (place_order cfg st script sig.symbol .buy sig.contracts
          .market none none).state.connected = true := by rw [hsinv.1, hc]
      have he2 : (place_order cfg st script sig.symbol .buy sig.contracts
          .market none none).state.trading_enabled = true := by
        rw [hinv.2.2.2.2, he]
      have hl2 : ¬ (place_order cfg st script sig.symbol .buy sig.contracts
          .market none none).state.daily_pnl < -cfg.max_daily_loss := by
        rw [hsinv.2.1]
        exact hinv.2.2.1
      have hr2subs := place_order_subs_of_gate cfg
        (place_order cfg st script sig.symbol .buy sig.contracts .market
          none none).state
        (place_order cfg st script sig.symbol .buy sig.contracts .market
          none none).script
        sig.symbol .sell sig.contracts .stop none (some sl) hc2 he2 hl2
      simp only [execute_signal, hc, he, hL, hsl, hplaced, optTruthy,
        isPlaced, hnz, Bool.and_true, Bool.true_and, if_neg hnz]
      simp only [Bool.false_eq_true, if_false, reduceCtorEq, ite_false,
        ite_true]
      rw [hinv.2.2.2.1, hr2subs]
      rfl
    · intro hor
      have hcond : (optTruthy sig.stop_loss &&
          isPlaced (place_order cfg st script sig.symbol .buy sig.contracts
            .market none none).result) = false := by
        rcases hor with h | h <;> simp [h]
      simp only [execute_signal, hc, he, hL, hcond]
      simp only [Bool.false_eq_true, if_false, reduceCtorEq, ite_false,
        ite_true]
  · constructor
    · intro sl hsl hnz o hplaced
      have hinv := place_order_placed_inv cfg st script sig.symbol .sell
        sig.contracts .market none none o hplaced
      have hsinv := place_order_state_inv cfg st script sig.symbol .sell
        sig.contracts .market none none
      have hc2 : (place_order cfg st script sig.symbol .sell sig.contracts
          .market none none).state.connected = true := by rw [hsinv.1, hc]
      have he2 : (place_order cfg st script sig.symbol .sell sig.contracts
          .market none none).state.trading_enabled = true := by
        rw [hinv.2.2.2.2, he]
      have hl2 : ¬ (place_order cfg st script sig.symbol .sell sig.contracts
          .market none none).state.daily_pnl < -cfg.max_daily_loss := by
        rw [hsinv.2.1]
        exact hinv.2.2.1
      have hr2subs := place_order_subs_of_gate cfg
        (place_order cfg st script sig.symbol .sell sig.contracts .market
          none none).state
        (place_order cfg st script sig.symbol .sell sig.contracts .market
          none none).script
        sig.symbol .buy sig.contracts .stop none (some sl) hc2 he2 hl2
      simp only [execute_signal, hc, he, hS, hsl, hplaced, optTruthy,
        isPlaced, hnz, Bool.and_true, Bool.true_and, if_neg hnz]
      simp only [Bool.false_eq_true, if_false, reduceCtorEq, ite_false,
        ite_true, String.reduceEq]
      rw [hinv.2.2.2.1, hr2subs]
      rfl
    · intro hor
      have hcond : (optTruthy sig.stop_loss &&
          isPlaced (place_order cfg st script sig.symbol .sell sig.contracts
            .market none none).result) = false := by
        rcases hor with h | h <;> simp [h]
      simp only [execute_signal, hc, he, hS, hcond]
      simp only [Bool.false_eq_true, if_false, reduceCtorEq, ite_false,
        ite_true, String.reduceEq]

/-- Counterexample to claim C7 as stated: requesting 10 contracts against
cap 5 with stop 4500 yields two submissions of 5 contracts each, not of the
requested 10; and a supplied-but-zero stop-loss yields a single submission
(the entry alone) even though the entry order succeeded, not two. -/
theorem C7_counterexample :
    ((execute_signal cfg0 st0 [some "E1", some "S1"] true
        ⟨"LONG", "ESH5", 1, none, some 4500, none, 10⟩).subs.map
        Submission.quantity = [5, 5] ∧ (5 : Int) ≠ 10) ∧
    ((execute_signal cfg0 st0 [some "E1", some "S1"] true
        ⟨"LONG", "ESH5", 1, none, some 0, none, 2⟩).subs.length = 1 ∧
      (1 : Nat) ≠ 2) ∧
    (place_order cfg0 st0 [some "E1", some "S1"] "ESH5" .buy 2 .market
        none none).result =
      .placed ⟨"E1", "ESH5", .buy, 2, .market, none, none, .submitted, 0, 0⟩ := by
  decide

/-- Witness for the amended C7: the spec scenario (LONG, 2 contracts, stop
4500) produces the MARKET BUY 2 then STOP SELL 2 @ 4500 submissions, and the
same signal without a stop-loss makes only the entry submission. -/
theorem C7_witness :
    st0.connected = true ∧ st0.trading_enabled = true ∧
    (execute_signal cfg0 st0 [some "E1", some "S1"] true
        ⟨"LONG", "ESH5", 1, none, some 4500, none, 2⟩).subs =
      [⟨"ESH5", .buy, clampQty cfg0 2, .market, none, none⟩,
        ⟨"ESH5", .sell, clampQty cfg0 2, .stop, none, some 4500⟩] ∧
    (execute_signal cfg0 st0 [some "E1"] true
        ⟨"LONG", "ESH5", 1, none, none, none, 2⟩).subs =
      (place_order cfg0 st0 [some "E1"] "ESH5" .buy 2 .market none none).subs :=
  ⟨rfl, rfl,
    (C7_execute_signal_protective_stop cfg0 st0 [some "E1", some "S1"] true
      ⟨"LONG", "ESH5", 1, none, some 4500, none, 2⟩ .buy .sell rfl rfl
      (Or.inl ⟨rfl, rfl, rfl⟩)).1 4500 rfl (by decide)
      ⟨"E1", "ESH5", .buy, 2, .market, none, none, .submitted, 0, 0⟩
      (by decide),
    (C7_execute_signal_protective_stop cfg0 st0 [some "E1"] true
      ⟨"LONG", "ESH5", 1, none, none, none, 2⟩ .buy .sell rfl rfl
      (Or.inl ⟨rfl, rfl, rfl⟩)).2 (Or.inl rfl)⟩

end Trading
